import Mathlib

/-!
Shallow embedding of SmartRunner (src/scripts/runner.py), a PTY process
supervisor. The supervisor runs a child in a pseudo-terminal, drains its
output, detects IO_WAIT / STALL anomalies on a wall clock, pauses via a
file-based status record handshake with an external agent, and forwards
bytes from a named input pipe into the PTY master.

Modelling conventions:
- Wall-clock times (`time.time()`) are rationals, passed explicitly to each
  step as the sample the source takes at that line.
- Side effects (console echo, log append, print, status-file write, cron
  force-run, PTY-master write) are recorded as an explicit effect trace.
- Fallible reads (`os.read` after `select`, the status-file `json.load`)
  are `Except Unit` inputs to the step functions: `Except.error` stands for
  the exception path the corresponding `except` clause catches.
- The unbounded wait loop in `trigger_ai` is modelled by recursion over the
  list of per-iteration inputs it consumes.
-/

/-- Mutable supervisor state of `SmartRunner` relevant to the control loop:
`self.state`, `self.last_activity_time`, `self.last_log_chunk`
(runner.py lines 42-44). -/
structure Session where
  state : String
  lastActivityTime : ℚ
  lastLogChunk : String
deriving DecidableEq

/-- Observable side effects of the control loop and pause protocol. -/
inductive Effect where
  | echo (text : String)
  | logAppend (text : String)
  | printMsg (msg : String)
  | writeStatus (state : String) (reason : Option String) (info : Option String)
  | forceRun (cronId : String)
deriving DecidableEq

/-- `self.IO_WAIT_TIMEOUT = 2.0` (runner.py line 48). -/
def IO_WAIT_TIMEOUT : ℚ := 2

/-- `self.STALL_TIMEOUT = 30.0` (runner.py line 47). -/
def STALL_TIMEOUT : ℚ := 30

/-- The poll interval passed to `select.select` in both the main loop and the
pause wait loop (`0.5` seconds, runner.py lines 192 and 275). One iteration of
either loop corresponds to at most one such poll. -/
def POLL_INTERVAL : ℚ := 1 / 2

/-- `update_status` (runner.py lines 68-85) at the record level: sets
`self.state` and writes the status record (state, reason, info fields beyond
the fixed pid/cmd/pipe fields). -/
def update_status (s : Session) (state : String) (reason info : Option String) :
    Session × List Effect :=
  ({ s with state := state }, [Effect.writeStatus state reason info])

/-- Inputs consumed by one iteration of the wait loop inside `trigger_ai`
(runner.py lines 188-216): the drain outcome (`Except.error` = `OSError`
from `select`/`os.read`, `Except.ok none` = not readable within the poll,
`Except.ok (some t)` = data decoded with `errors='replace'`), the status-file
read (`Except.error` = missing or malformed record swallowed by the bare
`except`, `Except.ok st` = the parsed record's `state` field), and the
`time.time()` sample taken at line 212 on resume. -/
structure WaitInput where
  drain : Except Unit (Option String)
  status : Except Unit String
  now : ℚ

/-- The drain block of the pause wait loop (runner.py lines 190-201): on
readable data, echo to stdout and append to the log; on no data or `OSError`,
do nothing. `if data:` is Python truthiness, i.e. the nonempty check. -/
def pauseLoopDrainEffects (drain : Except Unit (Option String)) : List Effect :=
  match drain with
  | Except.ok (some t) => if t = "" then [] else [Effect.echo t, Effect.logAppend t]
  | Except.ok none => []
  | Except.error _ => []

/-- One iteration of the wait loop inside `trigger_ai` (runner.py lines
188-216): drain the PTY, then read the status record; if its `state` field is
`"AI_DONE"`, print, rewrite the record to `MONITORING`, reset
`last_activity_time` to now and `last_log_chunk` to empty, and break (the
returned `Bool` is whether the loop continues). Read failures are swallowed. -/
def waitStep (s : Session) (inp : WaitInput) : Session × List Effect × Bool :=
  let drainEffs := pauseLoopDrainEffects inp.drain
  match inp.status with
  | Except.ok st =>
      if st = "AI_DONE" then
        let (s1, writeEffs) :=
          update_status s "MONITORING" none (some "Resumed after AI intervention")
        ({ s1 with lastActivityTime := inp.now, lastLogChunk := "" },
         drainEffs ++ [Effect.printMsg "[Runner] AI finished. Resuming..."] ++ writeEffs,
         false)
      else (s, drainEffs, true)
  | Except.error _ => (s, drainEffs, true)

/-- The wait loop of `trigger_ai`, recursing over the inputs it consumes;
stops early when an iteration breaks. -/
def triggerAiLoop (s : Session) : List WaitInput → Session × List Effect
  | [] => (s, [])
  | inp :: rest =>
    match waitStep s inp with
    | (s1, effs, true) =>
        let (s2, effs2) := triggerAiLoop s1 rest
        (s2, effs ++ effs2)
    | (s1, effs, false) => (s1, effs)

/-- `trigger_ai` (runner.py lines 173-216): re-entrant guard, then status
write to `WAITING_FOR_AI` with the reason, a best-effort cron force-run
(warning printed when no cron id is registered), then the wait loop. -/
def trigger_ai (s : Session) (reason : String) (cronId : Option String)
    (inputs : List WaitInput) : Session × List Effect :=
  if s.state = "WAITING_FOR_AI" then (s, [])
  else
    let (s1, writeEffs) := update_status s "WAITING_FOR_AI" (some reason) none
    let entryEffs :=
      [Effect.printMsg ("[Runner] Triggering AI. Reason: " ++ reason)] ++ writeEffs ++
      (match cronId with
       | some cid => [Effect.forceRun cid]
       | none => [Effect.printMsg "[Runner] Cannot trigger AI: No Cron ID"]) ++
      [Effect.printMsg "[Runner] Waiting for AI..."]
    let (s2, loopEffs) := triggerAiLoop s1 inputs
    (s2, entryEffs ++ loopEffs)

/-- Python `text.endswith(single newline)` as used at line 297: the last
character of the string is the newline character. -/
def endsWithNewline (text : String) : Bool :=
  match text.data.getLast? with
  | some c => c = '\n'
  | none => false

/-- The IO_WAIT condition of line 297: `elapsed > self.IO_WAIT_TIMEOUT and
self.last_log_chunk and not self.last_log_chunk.endswith(newline)`
(Python truthiness of the chunk is the nonempty check). -/
def ioWaitCond (s : Session) (now : ℚ) : Prop :=
  now - s.lastActivityTime > IO_WAIT_TIMEOUT ∧ s.lastLogChunk ≠ "" ∧
    endsWithNewline s.lastLogChunk = false

instance (s : Session) (now : ℚ) : Decidable (ioWaitCond s now) :=
  inferInstanceAs (Decidable (now - s.lastActivityTime > IO_WAIT_TIMEOUT ∧
    s.lastLogChunk ≠ "" ∧ endsWithNewline s.lastLogChunk = false))

/-- The STALL condition of line 302: `elapsed > self.STALL_TIMEOUT`. -/
def stallCond (s : Session) (now : ℚ) : Prop :=
  now - s.lastActivityTime > STALL_TIMEOUT

instance (s : Session) (now : ℚ) : Decidable (stallCond s now) :=
  inferInstanceAs (Decidable (now - s.lastActivityTime > STALL_TIMEOUT))

/-- The pure watchdog decision derived from lines 296-302: which anomaly, if
any, the timer check fires for a given session state and clock sample. -/
def watchdogDecision (s : Session) (now : ℚ) : Option String :=
  if ioWaitCond s now then some "IO_WAIT"
  else if stallCond s now then some "STALL"
  else none

/-- The timer-check tail of one main-loop iteration (runner.py lines 292-304):
`now` is the `time.time()` sample of line 293, `nowAfter` the sample of line
304 taken after `trigger_ai` returns. On IO_WAIT, `last_log_chunk` is cleared
after the trigger; on STALL, `last_activity_time` is reset after the trigger;
the `elif` makes the two branches mutually exclusive with IO_WAIT first. -/
def timerCheck (s : Session) (now : ℚ) (cronId : Option String)
    (waitInputs : List WaitInput) (nowAfter : ℚ) : Session × List Effect :=
  if ioWaitCond s now then
    let (s1, effs) := trigger_ai s "IO_WAIT" cronId waitInputs
    ({ s1 with lastLogChunk := "" }, effs)
  else if stallCond s now then
    let (s1, effs) := trigger_ai s "STALL" cronId waitInputs
    ({ s1 with lastActivityTime := nowAfter }, effs)
  else (s, [])

/-- First status-record write in an effect trace, as (state, reason). -/
def firstStatusWrite : List Effect → Option (String × Option String)
  | [] => none
  | Effect.writeStatus st r _ :: _ => some (st, r)
  | Effect.echo _ :: rest => firstStatusWrite rest
  | Effect.logAppend _ :: rest => firstStatusWrite rest
  | Effect.printMsg _ :: rest => firstStatusWrite rest
  | Effect.forceRun _ :: rest => firstStatusWrite rest

/-- The drain block of one main-loop iteration (runner.py lines 275-290): on
readable data, echo, append to the log, and update the activity clock and the
last chunk; on `OSError` the main loop breaks (returned Bool false); `tRead`
is the `time.time()` sample of line 289. -/
def mainLoopDrainStep (s : Session) (drain : Except Unit (Option String))
    (tRead : ℚ) : Session × List Effect × Bool :=
  match drain with
  | Except.error _ => (s, [], false)
  | Except.ok none => (s, [], true)
  | Except.ok (some t) =>
      if t = "" then (s, [], true)
      else ({ s with lastActivityTime := tRead, lastLogChunk := t },
            [Effect.echo t, Effect.logAppend t], true)

/-- A file-system operation on the status record path, as seen by a concurrent
reader. -/
inductive FileOp where
  | truncateOpen
  | writeContent (content : String)
deriving DecidableEq

/-- The write path of `update_status` (runner.py lines 84-85):
`open(self.status_file, 'w')` truncates the record file in place, then
`json.dump` writes the serialized record into it. No temporary file and no
rename is involved. -/
def update_status_file_ops (content : String) : List FileOp :=
  [FileOp.truncateOpen, FileOp.writeContent content]

/-- The record contents a concurrent reader can observe after each of the
operations performed on the record path (before the first operation it
observes the previous record unchanged). -/
def observedContents : List FileOp → List String
  | [] => []
  | FileOp.truncateOpen :: rest => "" :: observedContents rest
  | FileOp.writeContent c :: rest => c :: observedContents rest

/-- Atomic replacement of `old` by `new`: a concurrent reader only ever
observes the old or the new complete record, never a partial one. -/
def atomicReplace (old new : String) (ops : List FileOp) : Prop :=
  ∀ c ∈ observedContents ops, c = old ∨ c = new

/-- POSIX permission-bit constants of Python's `stat` module, as combined at
runner.py line 60. -/
def S_IRUSR : Nat := 0o400

/-- Owner-write permission bit. -/
def S_IWUSR : Nat := 0o200

/-- Group-read permission bit. -/
def S_IRGRP : Nat := 0o040

/-- Group-write permission bit. -/
def S_IWGRP : Nat := 0o020

/-- Contents of the per-session runner directory: the status record (state,
reason, info), the output log, the pid file, and the named input pipe with
its permission bits; `none` means the artifact does not exist. -/
structure RunnerDirState where
  statusContent : Option (String × Option String × Option String)
  logContent : Option String
  pidContent : Option Nat
  pipePerm : Option Nat
deriving DecidableEq

/-- The conditional `shutil.rmtree` of `setup_dirs` (runner.py lines 52-54):
if the runner directory exists it is removed with its whole contents;
afterwards it does not exist either way. -/
def rmtreeIfExists : Option RunnerDirState → Option RunnerDirState
  | some _ => none
  | none => none

/-- `setup_dirs` (runner.py lines 50-66): remove any existing runner
directory, recreate it empty, create the input pipe and chmod it to
owner/group read/write, write the pid file, and write the initial MONITORING
status record. The log file is not created here; it is created by the first
append in `log_output`. -/
def setup_dirs (prior : Option RunnerDirState) (pid : Nat) : RunnerDirState :=
  let d0 : RunnerDirState :=
    match rmtreeIfExists prior with
    | some d => d
    | none => { statusContent := none, logContent := none,
                pidContent := none, pipePerm := none }
  let d1 := { d0 with
    pipePerm := some (Nat.lor (Nat.lor (Nat.lor S_IRUSR S_IWUSR) S_IRGRP) S_IWGRP) }
  let d2 := { d1 with pidContent := some pid }
  { d2 with statusContent := some ("MONITORING", none, some "Starting up") }

/-- Range test on a byte, used by the UTF-8 validator. -/
def inRange (lo hi b : Nat) : Bool :=
  decide (lo ≤ b ∧ b ≤ hi)

/-- UTF-8 validity of a byte sequence as enforced by Python's strict utf-8
decoder (continuation-byte ranges per leading byte, rejecting overlong forms
and surrogates). Models the decoding step of the text-mode pipe read at
runner.py line 229; an invalid sequence raises, landing in the gate's except
clause. -/
def utf8Valid : List Nat → Bool
  | [] => true
  | b :: rest =>
    if b < 128 then utf8Valid rest
    else if inRange 194 223 b then
      match rest with
      | c1 :: rest2 => inRange 128 191 c1 && utf8Valid rest2
      | [] => false
    else if b = 224 then
      match rest with
      | c1 :: c2 :: rest2 =>
          inRange 160 191 c1 && inRange 128 191 c2 && utf8Valid rest2
      | _ => false
    else if inRange 225 236 b || inRange 238 239 b then
      match rest with
      | c1 :: c2 :: rest2 =>
          inRange 128 191 c1 && inRange 128 191 c2 && utf8Valid rest2
      | _ => false
    else if b = 237 then
      match rest with
      | c1 :: c2 :: rest2 =>
          inRange 128 159 c1 && inRange 128 191 c2 && utf8Valid rest2
      | _ => false
    else if b = 240 then
      match rest with
      | c1 :: c2 :: c3 :: rest2 =>
          inRange 144 191 c1 && inRange 128 191 c2 && inRange 128 191 c3 &&
            utf8Valid rest2
      | _ => false
    else if inRange 241 243 b then
      match rest with
      | c1 :: c2 :: c3 :: rest2 =>
          inRange 128 191 c1 && inRange 128 191 c2 && inRange 128 191 c3 &&
            utf8Valid rest2
      | _ => false
    else if b = 244 then
      match rest with
      | c1 :: c2 :: c3 :: rest2 =>
          inRange 128 143 c1 && inRange 128 191 c2 && inRange 128 191 c3 &&
            utf8Valid rest2
      | _ => false
    else false

/-- Universal-newline translation performed by Python text-mode reads
(`open` with default `newline=None`): a carriage return, optionally followed
by a line feed, becomes a single line feed. Stated at the byte level: CR (13)
and LF (10) are ASCII and never occur inside multi-byte UTF-8 sequences, so
the translation of the decoded text corresponds to this byte transform. -/
def translateNewlinesAux : Bool → List Nat → List Nat
  | _, [] => []
  | prevCr, b :: rest =>
    if b = 13 then 10 :: translateNewlinesAux true rest
    else if b = 10 then
      if prevCr then translateNewlinesAux false rest
      else 10 :: translateNewlinesAux false rest
    else b :: translateNewlinesAux false rest

/-- Universal-newline translation of a whole stream: each carriage return
becomes a line feed, and a line feed directly following a carriage return is
dropped (the pair collapses to one line feed). -/
def translateNewlines (bs : List Nat) : List Nat :=
  translateNewlinesAux false bs

/-- The byte stream one writer connection delivers to the PTY master
(runner.py lines 227-233): the text-mode read decodes the writer's bytes
(strict UTF-8 with universal newlines) and `data.encode('utf-8')` re-encodes
them before `os.write` to the master; at the byte level the forwarded stream
is the universal-newline translation of the input when it decodes, and the
decode error otherwise. -/
def gateForwarded (bs : List Nat) : Except Unit (List Nat) :=
  if utf8Valid bs then Except.ok (translateNewlines bs) else Except.error ()

/-- Observable effects of the input gate thread. -/
inductive GateEffect where
  | writeMaster (bytes : List Nat)
  | printMsg (msg : String)
  | sleepHalf
deriving DecidableEq

/-- One writer connection of `input_gate_thread` (runner.py lines 225-238):
forward the decoded data to the PTY master and log the injection, break on
end-of-input; on any exception print the gate error and sleep 500 ms before
retrying. An empty stream (immediate end-of-input) forwards nothing. -/
def gateSession (bs : List Nat) : List GateEffect :=
  match gateForwarded bs with
  | Except.ok out =>
      if out = [] then []
      else [GateEffect.writeMaster out, GateEffect.printMsg "[Runner] Injected input"]
  | Except.error _ =>
      [GateEffect.printMsg "[Runner] Input gate error", GateEffect.sleepHalf]

/-- The input gate loop across successive writer connections (runner.py
lines 224-238): the pipe is reopened after each writer disconnects, for
arbitrarily many connect/disconnect cycles. -/
def input_gate_thread : List (List Nat) → List GateEffect
  | [] => []
  | bs :: rest => gateSession bs ++ input_gate_thread rest

/-- The byte chunks written to the PTY master in an effect trace, in order. -/
def masterWrites : List GateEffect → List (List Nat)
  | [] => []
  | GateEffect.writeMaster bs :: rest => bs :: masterWrites rest
  | GateEffect.printMsg _ :: rest => masterWrites rest
  | GateEffect.sleepHalf :: rest => masterWrites rest

instance (old new : String) (ops : List FileOp) : Decidable (atomicReplace old new ops) :=
  inferInstanceAs (Decidable (∀ c ∈ observedContents ops, c = old ∨ c = new))

/-- The pause-loop drain never writes the status record: its only effects are
the console echo and the log append. -/
theorem pauseLoopDrain_no_statusWrite (d : Except Unit (Option String))
    (st : String) (r i : Option String) :
    Effect.writeStatus st r i ∉ pauseLoopDrainEffects d := by
  cases d with
  | error e => simp [pauseLoopDrainEffects]
  | ok od =>
    cases od with
    | none => simp [pauseLoopDrainEffects]
    | some t => by_cases ht : t = "" <;> simp [pauseLoopDrainEffects, ht]

/-- Every status-record write emitted by one pause wait-loop iteration is the
resume write: state `MONITORING` with no reason. -/
theorem waitStep_statusWrite (s : Session) (inp : WaitInput)
    (st : String) (r i : Option String)
    (hmem : Effect.writeStatus st r i ∈ (waitStep s inp).2.1) :
    st = "MONITORING" ∧ r = none := by
  rcases inp with ⟨d, stat, now⟩
  cases stat with
  | error e =>
    simp [waitStep] at hmem
    exact absurd hmem (pauseLoopDrain_no_statusWrite _ _ _ _)
  | ok v =>
    by_cases hv : v = "AI_DONE"
    · subst hv
      simp [waitStep, update_status] at hmem
      rcases hmem with hmem | hmem
      · exact absurd hmem (pauseLoopDrain_no_statusWrite _ _ _ _)
      · exact ⟨hmem.1, hmem.2.1⟩
    · simp [waitStep, hv] at hmem
      exact absurd hmem (pauseLoopDrain_no_statusWrite _ _ _ _)

/-- When the re-entrant guard does not fire, the effect trace of `trigger_ai`
starts with the trigger print and the `WAITING_FOR_AI` status write, followed
by the cron step, the waiting print and the wait-loop effects. -/
theorem trigger_ai_effects (s : Session) (reason : String) (cronId : Option String)
    (inputs : List WaitInput) (hguard : s.state ≠ "WAITING_FOR_AI") :
    (trigger_ai s reason cronId inputs).2 =
      Effect.printMsg ("[Runner] Triggering AI. Reason: " ++ reason) ::
      Effect.writeStatus "WAITING_FOR_AI" (some reason) none ::
      ((match cronId with
        | some cid => [Effect.forceRun cid]
        | none => [Effect.printMsg "[Runner] Cannot trigger AI: No Cron ID"]) ++
       (Effect.printMsg "[Runner] Waiting for AI..." ::
        (triggerAiLoop { s with state := "WAITING_FOR_AI" } inputs).2)) := by
  unfold trigger_ai update_status
  rw [if_neg hguard]
  rcases h : triggerAiLoop { s with state := "WAITING_FOR_AI" } inputs with ⟨s2, le⟩
  simp [h]

/-- When the re-entrant guard does not fire, `trigger_ai` returns the session
produced by its wait loop started in `WAITING_FOR_AI`. -/
theorem trigger_ai_session (s : Session) (reason : String) (cronId : Option String)
    (inputs : List WaitInput) (hguard : s.state ≠ "WAITING_FOR_AI") :
    (trigger_ai s reason cronId inputs).1 =
      (triggerAiLoop { s with state := "WAITING_FOR_AI" } inputs).1 := by
  unfold trigger_ai update_status
  rw [if_neg hguard]

/-- On the IO_WAIT branch, the timer check runs `trigger_ai` with reason
`IO_WAIT` and then clears `last_log_chunk` (runner.py lines 297-299). -/
theorem timerCheck_ioWait (s : Session) (now : ℚ) (cronId : Option String)
    (waitInputs : List WaitInput) (nowAfter : ℚ) (hio : ioWaitCond s now) :
    timerCheck s now cronId waitInputs nowAfter =
      ({ (trigger_ai s "IO_WAIT" cronId waitInputs).1 with lastLogChunk := "" },
       (trigger_ai s "IO_WAIT" cronId waitInputs).2) := by
  unfold timerCheck
  rw [if_pos hio]

/-- On the STALL branch, the timer check runs `trigger_ai` with reason `STALL`
and then resets `last_activity_time` (runner.py lines 302-304). -/
theorem timerCheck_stall (s : Session) (now : ℚ) (cronId : Option String)
    (waitInputs : List WaitInput) (nowAfter : ℚ)
    (hnio : ¬ ioWaitCond s now) (hst : stallCond s now) :
    timerCheck s now cronId waitInputs nowAfter =
      ({ (trigger_ai s "STALL" cronId waitInputs).1 with lastActivityTime := nowAfter },
       (trigger_ai s "STALL" cronId waitInputs).2) := by
  unfold timerCheck
  rw [if_neg hnio, if_pos hst]

/-- Every status-record write emitted by the wait loop of `trigger_ai` is the
resume write: state `MONITORING` with no reason. -/
theorem triggerAiLoop_statusWrite (inputs : List WaitInput) (s : Session)
    (st : String) (r i : Option String)
    (hmem : Effect.writeStatus st r i ∈ (triggerAiLoop s inputs).2) :
    st = "MONITORING" ∧ r = none := by
  induction inputs generalizing s with
  | nil => simp [triggerAiLoop] at hmem
  | cons inp rest ih =>
    unfold triggerAiLoop at hmem
    rcases hws : waitStep s inp with ⟨s1, effs, b⟩
    rw [hws] at hmem
    have heffs : (waitStep s inp).2.1 = effs := by rw [hws]
    cases b with
    | true =>
      simp at hmem
      rcases hmem with hmem | hmem
      · exact waitStep_statusWrite s inp st r i (heffs ▸ hmem)
      · exact ih s1 hmem
    | false =>
      simp at hmem
      exact waitStep_statusWrite s inp st r i (heffs ▸ hmem)

/-- C1: in state MONITORING, when elapsed time exceeds IO_WAIT_TIMEOUT and the
last chunk is non-empty and does not end in a line terminator, the iteration
transitions to WAITING_FOR_AI with reason IO_WAIT (its first status-record
write) and leaves the last chunk cleared to empty, so the same chunk cannot
re-trigger IO_WAIT. -/
theorem c1_io_wait_transition (s : Session) (now : ℚ) (cronId : Option String)
    (waitInputs : List WaitInput) (nowAfter : ℚ)
    (hstate : s.state = "MONITORING")
    (helapsed : now - s.lastActivityTime > IO_WAIT_TIMEOUT)
    (hchunk : s.lastLogChunk ≠ "")
    (hterm : endsWithNewline s.lastLogChunk = false) :
    firstStatusWrite (timerCheck s now cronId waitInputs nowAfter).2 =
      some ("WAITING_FOR_AI", some "IO_WAIT") ∧
    (timerCheck s now cronId waitInputs nowAfter).1.lastLogChunk = "" := by
  have hio : ioWaitCond s now := ⟨helapsed, hchunk, hterm⟩
  have hguard : s.state ≠ "WAITING_FOR_AI" := by rw [hstate]; decide
  rw [timerCheck_ioWait s now cronId waitInputs nowAfter hio]
  refine ⟨?_, rfl⟩
  rw [trigger_ai_effects s "IO_WAIT" cronId waitInputs hguard]
  simp [firstStatusWrite]

/-- Witness for C1 at a concrete input: session in MONITORING with clock 0 and
chunk "abc", checked at time 3. -/
theorem c1_io_wait_transition_witness :
    ((⟨"MONITORING", 0, "abc"⟩ : Session).state = "MONITORING" ∧
     (3 : ℚ) - (⟨"MONITORING", 0, "abc"⟩ : Session).lastActivityTime > IO_WAIT_TIMEOUT ∧
     (⟨"MONITORING", 0, "abc"⟩ : Session).lastLogChunk ≠ "" ∧
     endsWithNewline (⟨"MONITORING", 0, "abc"⟩ : Session).lastLogChunk = false) ∧
    (firstStatusWrite (timerCheck ⟨"MONITORING", 0, "abc"⟩ 3 none [] 3).2 =
       some ("WAITING_FOR_AI", some "IO_WAIT") ∧
     (timerCheck ⟨"MONITORING", 0, "abc"⟩ 3 none [] 3).1.lastLogChunk = "") :=
  ⟨⟨rfl, by norm_num [IO_WAIT_TIMEOUT], by decide, by decide⟩,
   c1_io_wait_transition ⟨"MONITORING", 0, "abc"⟩ 3 none [] 3 rfl
     (by norm_num [IO_WAIT_TIMEOUT]) (by decide) (by decide)⟩

/-- C2: in state MONITORING with elapsed time above STALL_TIMEOUT, if the
IO_WAIT condition does not hold the iteration transitions to WAITING_FOR_AI
with reason STALL (its first status-record write) and resets the activity
clock to the time sampled after the trigger; if the IO_WAIT condition also
holds, IO_WAIT fires and no status write with reason STALL occurs. -/
theorem c2_stall_transition (s : Session) (now : ℚ) (cronId : Option String)
    (waitInputs : List WaitInput) (nowAfter : ℚ)
    (hstate : s.state = "MONITORING")
    (hstall : now - s.lastActivityTime > STALL_TIMEOUT) :
    (¬ ioWaitCond s now →
      firstStatusWrite (timerCheck s now cronId waitInputs nowAfter).2 =
        some ("WAITING_FOR_AI", some "STALL") ∧
      (timerCheck s now cronId waitInputs nowAfter).1.lastActivityTime = nowAfter) ∧
    (ioWaitCond s now →
      firstStatusWrite (timerCheck s now cronId waitInputs nowAfter).2 =
        some ("WAITING_FOR_AI", some "IO_WAIT") ∧
      ∀ st i, Effect.writeStatus st (some "STALL") i ∉
        (timerCheck s now cronId waitInputs nowAfter).2) := by
  have hguard : s.state ≠ "WAITING_FOR_AI" := by rw [hstate]; decide
  constructor
  · intro hnio
    rw [timerCheck_stall s now cronId waitInputs nowAfter hnio hstall]
    refine ⟨?_, rfl⟩
    rw [trigger_ai_effects s "STALL" cronId waitInputs hguard]
    simp [firstStatusWrite]
  · intro hio
    rw [timerCheck_ioWait s now cronId waitInputs nowAfter hio]
    constructor
    · rw [trigger_ai_effects s "IO_WAIT" cronId waitInputs hguard]
      simp [firstStatusWrite]
    · intro st i hmem
      rw [trigger_ai_effects s "IO_WAIT" cronId waitInputs hguard] at hmem
      simp at hmem
      rcases hmem with hmem | hmem
      · cases cronId with
        | none => simp at hmem
        | some cid => simp at hmem
      · have := triggerAiLoop_statusWrite waitInputs
          { s with state := "WAITING_FOR_AI" } st (some "STALL") i hmem
        exact absurd this.2 (by simp)

/-- Witness for C2 at a concrete input: session in MONITORING with clock 0 and
empty chunk, checked at time 31. -/
theorem c2_stall_transition_witness :
    ((⟨"MONITORING", 0, ""⟩ : Session).state = "MONITORING" ∧
     (31 : ℚ) - (⟨"MONITORING", 0, ""⟩ : Session).lastActivityTime > STALL_TIMEOUT) ∧
    ((¬ ioWaitCond ⟨"MONITORING", 0, ""⟩ 31 →
      firstStatusWrite (timerCheck ⟨"MONITORING", 0, ""⟩ 31 none [] 31).2 =
        some ("WAITING_FOR_AI", some "STALL") ∧
      (timerCheck ⟨"MONITORING", 0, ""⟩ 31 none [] 31).1.lastActivityTime = 31) ∧
     (ioWaitCond ⟨"MONITORING", 0, ""⟩ 31 →
      firstStatusWrite (timerCheck ⟨"MONITORING", 0, ""⟩ 31 none [] 31).2 =
        some ("WAITING_FOR_AI", some "IO_WAIT") ∧
      ∀ st i, Effect.writeStatus st (some "STALL") i ∉
        (timerCheck ⟨"MONITORING", 0, ""⟩ 31 none [] 31).2)) :=
  ⟨⟨rfl, by norm_num [STALL_TIMEOUT]⟩,
   c2_stall_transition ⟨"MONITORING", 0, ""⟩ 31 none [] 31 rfl
     (by norm_num [STALL_TIMEOUT])⟩

/-- C3: when the status record read during the pause wait loop yields state
AI_DONE, that same iteration rewrites the record to MONITORING, resets the
activity clock to the current time, clears the last chunk, and exits the wait
loop (one iteration is one 500 ms poll); on the resumed session neither
IO_WAIT nor STALL fires at any watchdog check within STALL_TIMEOUT of the
resume. -/
theorem c3_resume_on_ai_done (s : Session) (inp : WaitInput)
    (hst : inp.status = Except.ok "AI_DONE") :
    (waitStep s inp).1.state = "MONITORING" ∧
    (waitStep s inp).1.lastActivityTime = inp.now ∧
    (waitStep s inp).1.lastLogChunk = "" ∧
    (waitStep s inp).2.2 = false ∧
    Effect.writeStatus "MONITORING" none (some "Resumed after AI intervention") ∈
      (waitStep s inp).2.1 ∧
    ∀ t : ℚ, t - inp.now ≤ STALL_TIMEOUT →
      watchdogDecision (waitStep s inp).1 t = none := by
  rcases inp with ⟨d, stat, now⟩
  simp only at hst
  subst hst
  have hws : waitStep s ⟨d, Except.ok "AI_DONE", now⟩ =
      (⟨"MONITORING", now, ""⟩,
       pauseLoopDrainEffects d ++
         [Effect.printMsg "[Runner] AI finished. Resuming...",
          Effect.writeStatus "MONITORING" none (some "Resumed after AI intervention")],
       false) := by
    simp [waitStep, update_status]
  rw [hws]
  refine ⟨rfl, rfl, rfl, rfl, by simp, ?_⟩
  intro t ht
  have hnio : ¬ ioWaitCond ⟨"MONITORING", now, ""⟩ t := by
    intro h
    exact h.2.1 rfl
  have hnst : ¬ stallCond ⟨"MONITORING", now, ""⟩ t := by
    unfold stallCond
    simp only
    exact not_lt.mpr ht
  simp [watchdogDecision, hnio, hnst]

/-- Witness for C3 at a concrete input: paused session, status record read
returns AI_DONE at time 100. -/
theorem c3_resume_on_ai_done_witness :
    (WaitInput.mk (Except.ok none) (Except.ok "AI_DONE") 100).status =
      Except.ok "AI_DONE" ∧
    ((waitStep ⟨"WAITING_FOR_AI", 0, "x"⟩
        ⟨Except.ok none, Except.ok "AI_DONE", 100⟩).1.state = "MONITORING" ∧
     (waitStep ⟨"WAITING_FOR_AI", 0, "x"⟩
        ⟨Except.ok none, Except.ok "AI_DONE", 100⟩).1.lastActivityTime = 100 ∧
     (waitStep ⟨"WAITING_FOR_AI", 0, "x"⟩
        ⟨Except.ok none, Except.ok "AI_DONE", 100⟩).1.lastLogChunk = "" ∧
     (waitStep ⟨"WAITING_FOR_AI", 0, "x"⟩
        ⟨Except.ok none, Except.ok "AI_DONE", 100⟩).2.2 = false ∧
     Effect.writeStatus "MONITORING" none (some "Resumed after AI intervention") ∈
       (waitStep ⟨"WAITING_FOR_AI", 0, "x"⟩
          ⟨Except.ok none, Except.ok "AI_DONE", 100⟩).2.1 ∧
     ∀ t : ℚ, t - (WaitInput.mk (Except.ok none) (Except.ok "AI_DONE") 100).now ≤
         STALL_TIMEOUT →
       watchdogDecision (waitStep ⟨"WAITING_FOR_AI", 0, "x"⟩
          ⟨Except.ok none, Except.ok "AI_DONE", 100⟩).1 t = none) :=
  ⟨rfl, c3_resume_on_ai_done ⟨"WAITING_FOR_AI", 0, "x"⟩
    ⟨Except.ok none, Except.ok "AI_DONE", 100⟩ rfl⟩

/-- C7: the pause wait loop echoes and logs every drained chunk exactly as the
main drain loop does: the console/log effect list of the pause drain equals
that of the main drain on every drain outcome, and each wait-loop iteration's
effect trace begins with exactly those drain effects. -/
theorem c7_pause_drain_logs (s s2 : Session) (inp : WaitInput) (tRead : ℚ) :
    (mainLoopDrainStep s2 inp.drain tRead).2.1 = pauseLoopDrainEffects inp.drain ∧
    ∃ rest, (waitStep s inp).2.1 = pauseLoopDrainEffects inp.drain ++ rest := by
  constructor
  · rcases hd : inp.drain with e | od
    · simp [mainLoopDrainStep, pauseLoopDrainEffects]
    · rcases od with _ | t
      · simp [mainLoopDrainStep, pauseLoopDrainEffects]
      · by_cases ht : t = "" <;>
          simp [mainLoopDrainStep, pauseLoopDrainEffects, ht]
  · rcases inp with ⟨d, stat, now⟩
    cases stat with
    | error e => exact ⟨[], by simp [waitStep]⟩
    | ok v =>
      by_cases hv : v = "AI_DONE"
      · subst hv
        exact ⟨[Effect.printMsg "[Runner] AI finished. Resuming...",
                Effect.writeStatus "MONITORING" none
                  (some "Resumed after AI intervention")],
               by simp [waitStep, update_status]⟩
      · exact ⟨[], by simp [waitStep, hv]⟩

/-- C8: a trigger request while the session is already WAITING_FOR_AI is a
no-op: the session is unchanged and no effect (no status write, no force-run)
is produced. -/
theorem c8_reentrant_guard (s : Session) (reason : String) (cronId : Option String)
    (inputs : List WaitInput) (h : s.state = "WAITING_FOR_AI") :
    trigger_ai s reason cronId inputs = (s, []) := by
  unfold trigger_ai
  rw [if_pos h]

/-- Witness for C8 at a concrete input: a STALL trigger request while already
WAITING_FOR_AI. -/
theorem c8_reentrant_guard_witness :
    (⟨"WAITING_FOR_AI", 5, "x"⟩ : Session).state = "WAITING_FOR_AI" ∧
    trigger_ai ⟨"WAITING_FOR_AI", 5, "x"⟩ "STALL" (some "job1")
        [⟨Except.ok (some "out"), Except.ok "AI_DONE", 9⟩] =
      (⟨"WAITING_FOR_AI", 5, "x"⟩, []) :=
  ⟨rfl, c8_reentrant_guard ⟨"WAITING_FOR_AI", 5, "x"⟩ "STALL" (some "job1")
    [⟨Except.ok (some "out"), Except.ok "AI_DONE", 9⟩] rfl⟩

/-- C10: a pause wait-loop iteration whose status read does not return AI_DONE
is a restricted drain: whatever output is drained, the session (state,
activity clock, last chunk) is returned unchanged, the only effects are the
console echo and the log append of the drained chunk, and the loop
continues. -/
theorem c10_pause_drain_frame (s : Session) (inp : WaitInput)
    (h : inp.status ≠ Except.ok "AI_DONE") :
    waitStep s inp = (s, pauseLoopDrainEffects inp.drain, true) := by
  rcases inp with ⟨d, stat, now⟩
  simp only at h
  cases stat with
  | error e => simp [waitStep]
  | ok v =>
    have hv : v ≠ "AI_DONE" := by
      intro hv
      exact h (by rw [hv])
    simp [waitStep, hv]

/-- Witness for C10 at a concrete input: a chunk is drained while the status
read fails; the session is unchanged. -/
theorem c10_pause_drain_frame_witness :
    (WaitInput.mk (Except.ok (some "partial output")) (Except.error ()) 7).status ≠
      Except.ok "AI_DONE" ∧
    waitStep ⟨"WAITING_FOR_AI", 3, "x"⟩
        ⟨Except.ok (some "partial output"), Except.error (), 7⟩ =
      (⟨"WAITING_FOR_AI", 3, "x"⟩,
       pauseLoopDrainEffects (Except.ok (some "partial output")), true) :=
  ⟨by simp, c10_pause_drain_frame ⟨"WAITING_FOR_AI", 3, "x"⟩
    ⟨Except.ok (some "partial output"), Except.error (), 7⟩ (by simp)⟩

/-- Universal-newline translation is the identity on streams containing no
carriage return, whatever the pending-carriage-return state. -/
theorem translateNewlinesAux_no_cr (bs : List Nat) (h : 13 ∉ bs) :
    translateNewlinesAux false bs = bs := by
  induction bs with
  | nil => rfl
  | cons b rest ih =>
    have hb : b ≠ 13 := fun hb => h (hb ▸ List.mem_cons_self b rest)
    have hrest : 13 ∉ rest := fun hr => h (List.mem_cons_of_mem b hr)
    simp only [translateNewlinesAux]
    rw [if_neg hb]
    by_cases h10 : b = 10
    · subst h10
      simp [ih hrest]
    · rw [if_neg h10, ih hrest]

/-- Universal-newline translation is the identity on streams containing no
carriage return. -/
theorem translateNewlines_no_cr (bs : List Nat) (h : 13 ∉ bs) :
    translateNewlines bs = bs :=
  translateNewlinesAux_no_cr bs h

/-- C4 counterexample: `update_status` writing a new record over a previous
one is observable mid-write as an empty file, which is neither the old nor
the new record, so the write is not an atomic replacement. -/
theorem c4_not_atomic_counterexample :
    ¬ atomicReplace "OLDRECORD" "NEWRECORD" (update_status_file_ops "NEWRECORD") := by
  decide

/-- C4 amended: `update_status` replaces the status record by an in-place
truncate-then-write (open with mode w, then dump), so the reader-observable
contents during the write are the empty file followed by the complete new
record: the final observable content is the full record, but whenever the old
and new records are non-empty the intermediate empty state makes the write
non-atomic. -/
theorem c4_update_status_in_place (old content : String)
    (hold : old ≠ "") (hnew : content ≠ "") :
    observedContents (update_status_file_ops content) = ["", content] ∧
    ¬ atomicReplace old content (update_status_file_ops content) := by
  refine ⟨rfl, fun h => ?_⟩
  rcases h "" (by simp [update_status_file_ops, observedContents]) with h0 | h0
  · exact hold h0.symm
  · exact hnew h0.symm

/-- Witness for C4 (amended) at concrete non-empty records. -/
theorem c4_update_status_in_place_witness :
    (("OLDRECORD" : String) ≠ "" ∧ ("NEWRECORD" : String) ≠ "") ∧
    (observedContents (update_status_file_ops "NEWRECORD") = ["", "NEWRECORD"] ∧
     ¬ atomicReplace "OLDRECORD" "NEWRECORD" (update_status_file_ops "NEWRECORD")) :=
  ⟨⟨by decide, by decide⟩,
   c4_update_status_in_place "OLDRECORD" "NEWRECORD" (by decide) (by decide)⟩

/-- C5 counterexample: a writer that sends the two bytes CR LF is forwarded a
single LF byte — the text-mode pipe read applies universal-newline
translation before the bytes are re-encoded into the PTY master, so
forwarding is not byte-for-byte. -/
theorem c5_crlf_counterexample :
    masterWrites (input_gate_thread [[13, 10]]) = [[10]] ∧
    masterWrites (input_gate_thread [[13, 10]]) ≠ [[13, 10]] := by
  decide

/-- C5 amended: for every sequence of writer connections whose bytes decode
as UTF-8, contain no carriage return, and are non-empty, the forwarded PTY
master writes are exactly the writers' byte streams, in order, across
arbitrarily many connect/disconnect cycles; in general each connection's
bytes are forwarded only after strict UTF-8 decoding and universal-newline
translation. -/
theorem c5_no_cr_verbatim_forwarding (sessions : List (List Nat))
    (hvalid : ∀ bs ∈ sessions, utf8Valid bs = true)
    (hnocr : ∀ bs ∈ sessions, 13 ∉ bs)
    (hne : ∀ bs ∈ sessions, bs ≠ []) :
    masterWrites (input_gate_thread sessions) = sessions := by
  induction sessions with
  | nil => rfl
  | cons bs rest ih =>
    have hv : utf8Valid bs = true := hvalid bs (List.mem_cons_self bs rest)
    have ht : translateNewlines bs = bs :=
      translateNewlines_no_cr bs (hnocr bs (List.mem_cons_self bs rest))
    have hb : bs ≠ [] := hne bs (List.mem_cons_self bs rest)
    have hgs : gateSession bs =
        [GateEffect.writeMaster bs, GateEffect.printMsg "[Runner] Injected input"] := by
      unfold gateSession gateForwarded
      rw [hv]
      simp [ht, hb]
    have hih : masterWrites (input_gate_thread rest) = rest :=
      ih (fun x hx => hvalid x (List.mem_cons_of_mem bs hx))
         (fun x hx => hnocr x (List.mem_cons_of_mem bs hx))
         (fun x hx => hne x (List.mem_cons_of_mem bs hx))
    simp [input_gate_thread, hgs, masterWrites, hih]

/-- Witness for C5 (amended): two successive writers, one sending the text
"hi" with a trailing LF and one sending a single Ctrl-C byte. -/
theorem c5_no_cr_verbatim_forwarding_witness :
    ((∀ bs ∈ [[104, 105, 10], [3]], utf8Valid bs = true) ∧
     (∀ bs ∈ [[104, 105, 10], [3]], (13 : Nat) ∉ bs) ∧
     (∀ bs ∈ [[104, 105, 10], [3]], bs ≠ ([] : List Nat))) ∧
    masterWrites (input_gate_thread [[104, 105, 10], [3]]) = [[104, 105, 10], [3]] :=
  ⟨⟨by decide, by decide, by decide⟩,
   c5_no_cr_verbatim_forwarding [[104, 105, 10], [3]] (by decide) (by decide) (by decide)⟩

/-- C6 counterexample: a main-loop iteration whose PTY read raises — the
shutdown race of runner.py lines 280-281, `except OSError: break` — returns
with the continue flag false and an empty effect trace: the error terminates
the main control loop and is neither logged nor retried, contradicting the
claim that all three transient error classes are logged, retried, and never
terminate the loop in which they occur; a pause wait-loop iteration in which
both the PTY read and the status-record read fail likewise produces no log
message (though that loop does continue). -/
theorem c6_error_handling_counterexample :
    mainLoopDrainStep ⟨"MONITORING", 0, ""⟩ (Except.error ()) 1 =
      (⟨"MONITORING", 0, ""⟩, [], false) ∧
    waitStep ⟨"WAITING_FOR_AI", 0, ""⟩ ⟨Except.error (), Except.error (), 1⟩ =
      (⟨"WAITING_FOR_AI", 0, ""⟩, [], true) := by
  exact ⟨by simp [mainLoopDrainStep], by simp [waitStep, pauseLoopDrainEffects]⟩

/-- C6 amended: no transient error propagates as an exception, but the three
classes are handled differently and only one is logged: a malformed or
missing status-record read during the pause wait loop is silently swallowed
(no log message, session unchanged, only the drain's console/log effects) and
retried at the next 500 ms poll without terminating the wait loop; a PTY read
error in the main control loop — the shutdown race the claim cites — is
neither logged nor retried: it breaks the main control loop (the PTY read
error in the pause drain, by contrast, is silently swallowed and the wait
loop continues with no effect); an input-channel I/O error in the input gate
is logged with the gate-error message and retried after a 500 ms sleep, the
gate loop continuing with the next connection. -/
theorem c6_transient_error_handling (s s2 : Session) (d : Except Unit (Option String))
    (now tRead : ℚ) (bs : List Nat) (rest : List (List Nat)) :
    waitStep s ⟨d, Except.error (), now⟩ = (s, pauseLoopDrainEffects d, true) ∧
    (∀ m, Effect.printMsg m ∉ pauseLoopDrainEffects d) ∧
    pauseLoopDrainEffects (Except.error ()) = [] ∧
    mainLoopDrainStep s2 (Except.error ()) tRead = (s2, [], false) ∧
    (utf8Valid bs = false →
      input_gate_thread (bs :: rest) =
        GateEffect.printMsg "[Runner] Input gate error" :: GateEffect.sleepHalf ::
          input_gate_thread rest) := by
  refine ⟨by simp [waitStep], ?_, rfl, by simp [mainLoopDrainStep], ?_⟩
  · intro m
    cases d with
    | error e => simp [pauseLoopDrainEffects]
    | ok od =>
      cases od with
      | none => simp [pauseLoopDrainEffects]
      | some t => by_cases ht : t = "" <;> simp [pauseLoopDrainEffects, ht]
  · intro hv
    simp [input_gate_thread, gateSession, gateForwarded, hv]

/-- Witness for C6 (amended) at concrete inputs: a drained chunk with a failed
status read, a main-loop iteration whose PTY read raises, and a gate
connection delivering one invalid UTF-8 byte. -/
theorem c6_transient_error_handling_witness :
    utf8Valid [255] = false ∧
    waitStep ⟨"WAITING_FOR_AI", 0, ""⟩ ⟨Except.ok (some "x"), Except.error (), 2⟩ =
      (⟨"WAITING_FOR_AI", 0, ""⟩, pauseLoopDrainEffects (Except.ok (some "x")), true) ∧
    mainLoopDrainStep ⟨"MONITORING", 5, "y"⟩ (Except.error ()) 6 =
      (⟨"MONITORING", 5, "y"⟩, [], false) ∧
    input_gate_thread [[255]] =
      [GateEffect.printMsg "[Runner] Input gate error", GateEffect.sleepHalf] :=
  ⟨by decide,
   (c6_transient_error_handling ⟨"WAITING_FOR_AI", 0, ""⟩ ⟨"MONITORING", 5, "y"⟩
      (Except.ok (some "x")) 2 6 [255] []).1,
   (c6_transient_error_handling ⟨"WAITING_FOR_AI", 0, ""⟩ ⟨"MONITORING", 5, "y"⟩
      (Except.ok (some "x")) 2 6 [255] []).2.2.2.1,
   by
     have h := (c6_transient_error_handling ⟨"WAITING_FOR_AI", 0, ""⟩
        ⟨"MONITORING", 5, "y"⟩ (Except.ok (some "x")) 2 6 [255] []).2.2.2.2 (by decide)
     simpa [input_gate_thread] using h⟩

/-- C9: `setup_dirs` yields the same fresh directory state whatever the prior
contents (including none): pipe present with permissions 432 = 0o660 (owner
and group read/write only), pid file with the runner pid, initial MONITORING
status record, and no log file yet (it is created by the first append). -/
theorem c9_idempotent_fresh_start (p1 p2 : Option RunnerDirState) (pid : Nat) :
    setup_dirs p1 pid = setup_dirs p2 pid ∧
    (setup_dirs p1 pid).pipePerm = some 432 ∧
    (setup_dirs p1 pid).statusContent = some ("MONITORING", none, some "Starting up") ∧
    (setup_dirs p1 pid).pidContent = some pid ∧
    (setup_dirs p1 pid).logContent = none := by
  have hperm : Nat.lor (Nat.lor (Nat.lor S_IRUSR S_IWUSR) S_IRGRP) S_IWGRP = 432 := by
    decide
  have hs : ∀ p : Option RunnerDirState, setup_dirs p pid =
      ⟨some ("MONITORING", none, some "Starting up"), none, some pid, some 432⟩ := by
    intro p
    cases p with
    | none => simp [setup_dirs, rmtreeIfExists, hperm]
    | some d => simp [setup_dirs, rmtreeIfExists, hperm]
  rw [hs p1, hs p2]
  exact ⟨rfl, rfl, rfl, rfl, rfl⟩
